import Mathlib

/-!
Shallow embedding of the UiPath Orchestrator API client
(`src/uipath-client.ts`): token lifecycle, OData query building with
degrade-gracefully fallback, and the composite analytics operations.

JavaScript numbers that hold integral values (millisecond timestamps,
counts, ids) are modelled as `Int`; rates computed with `/` and `* 100`
are modelled exactly as `Rat` (the concrete divisions performed by the
code are exact at the precision that matters for the stated claims).
Network interaction is modelled by passing the environment's responses
as explicit function arguments; each operation returns its result
together with the trace of requests it issued where a claim needs it.
-/

namespace UiPath

/-- The single-quote character, used when building OData literals. -/
def quoteChar : Char := Char.ofNat 39

/-- The one-character string containing a single quote. -/
def sq : String := String.singleton quoteChar

/-- `List.isPrefixOf`-based substring test on character lists. -/
def listHasSub (pat : List Char) : List Char → Bool
  | [] => pat.isEmpty
  | c :: rest => List.isPrefixOf pat (c :: rest) || listHasSub pat rest

/-- JavaScript `String.prototype.includes`: `s` contains `pat` as a
contiguous substring. -/
def strContains (s pat : String) : Bool :=
  listHasSub pat.data s.data

-- ============ Token Manager (ensureToken, lines 89-135) ============

/-- Wire shape of a successful token exchange (`TokenResponse`). -/
structure TokenResponse where
  access_token : String
  expires_in : Int
  deriving DecidableEq, Repr

/-- The client's mutable credential cache: `accessToken` and
`tokenExpiresAt` (milliseconds since epoch), both initially `null`. -/
structure ClientTokenState where
  accessToken : Option String
  tokenExpiresAt : Option Int
  deriving DecidableEq, Repr

/-- The 5-minute refresh buffer, in milliseconds (line 92). -/
def tokenBufferMs : Int := 5 * 60 * 1000

/-- The guard of lines 90-95: `this.accessToken && this.tokenExpiresAt`
(JS truthiness: a present, non-empty token string and a present expiry)
and `now < expiresAt - buffer`. -/
def tokenCacheUsable (st : ClientTokenState) (now : Int) : Bool :=
  match st.accessToken, st.tokenExpiresAt with
  | some tok, some exp => tok != "" && decide (now < exp - tokenBufferMs)
  | _, _ => false

/-- Outcome of the (single) token-exchange POST, as seen by the client. -/
inductive ExchangeOutcome where
  | success (resp : TokenResponse)
  | failure (body : String)
  deriving DecidableEq, Repr

/-- What an `ensureToken()` call produced: the value-or-error, the cache
state afterwards, and how many network calls were issued. -/
structure EnsureTokenResult where
  result : Except String String
  state : ClientTokenState
  networkCalls : Nat
  deriving Repr

/-- `ensureToken()` (lines 89-135). `now` is the current clock reading
(`new Date()` / `Date.now()`, treated as one instant for the call);
`exchange` is the outcome the identity endpoint would give were it
called. -/
def ensureToken (st : ClientTokenState) (now : Int) (exchange : ExchangeOutcome) :
    EnsureTokenResult :=
  if tokenCacheUsable st now then
    { result := .ok (st.accessToken.getD ""), state := st, networkCalls := 0 }
  else
    match exchange with
    | .failure body =>
        { result := .error ("Failed to obtain access token: " ++ body)
          state := st
          networkCalls := 1 }
    | .success resp =>
        { result := .ok resp.access_token
          state := { accessToken := some resp.access_token
                     tokenExpiresAt := some (now + resp.expires_in * 1000) }
          networkCalls := 1 }

-- ============ computeDuration (lines 1419-1425) ============

/-- JavaScript `Math.round((end - start) / 1000)` for integral
millisecond inputs: round half toward positive infinity, i.e.
`⌊d / 1000 + 1 / 2⌋ = ⌊(d + 500) / 1000⌋`, by flooring division. -/
def jsRoundDiv1000 (d : Int) : Int :=
  Int.fdiv (d + 500) 1000

/-- `computeDuration(startTime, endTime)` (lines 1419-1425). `parse`
models the host's `new Date(s).getTime()`: `none` stands for an invalid
date (`NaN`). The guard `!startTime || !endTime` is JS truthiness, so an
empty string is rejected like an absent one. -/
def computeDuration (parse : String → Option Int)
    (startTime endTime : Option String) : Option Int :=
  match startTime, endTime with
  | some s, some e =>
      if s = "" || e = "" then none
      else
        match parse s, parse e with
        | some a, some b => some (jsRoundDiv1000 (b - a))
        | _, _ => none
  | _, _ => none

/-- A concrete host timestamp parser used to instantiate theorems about
`computeDuration`: two known timestamps two minutes apart. -/
def duraParse (t : String) : Option Int :=
  if t = "2024-01-01T10:00:00Z" then some 1704103200000
  else if t = "2024-01-01T10:02:00Z" then some 1704103320000
  else none

-- ============ Domain enumerations (types.ts) ============

/-- `QueueItemStatus` (types.ts lines 94-101). -/
inductive QueueItemStatus where
  | New
  | InProgress
  | Successful
  | Failed
  | Abandoned
  | Retried
  | Deleted
  deriving DecidableEq, BEq, Repr

/-- The wire name of a queue-item status, as interpolated into filters. -/
def queueItemStatusName : QueueItemStatus → String
  | .New => "New"
  | .InProgress => "InProgress"
  | .Successful => "Successful"
  | .Failed => "Failed"
  | .Abandoned => "Abandoned"
  | .Retried => "Retried"
  | .Deleted => "Deleted"

/-- `JobState` (types.ts lines 134-143). -/
inductive JobState where
  | Pending
  | Running
  | Successful
  | Faulted
  | Stopping
  | Terminated
  | Stopped
  | Suspended
  | Resumed
  deriving DecidableEq, BEq, Repr

/-- The wire name of a job state, as interpolated into filters. -/
def jobStateName : JobState → String
  | .Pending => "Pending"
  | .Running => "Running"
  | .Successful => "Successful"
  | .Faulted => "Faulted"
  | .Stopping => "Stopping"
  | .Terminated => "Terminated"
  | .Stopped => "Stopped"
  | .Suspended => "Suspended"
  | .Resumed => "Resumed"

/-- The fields of a `Job` record that the modelled operations read
(the remaining wire fields are opaque pass-through). -/
structure Job where
  Id : Int
  Key : String
  State : JobState
  ReleaseName : String
  StartTime : Option String
  EndTime : Option String
  deriving DecidableEq, BEq, Repr

/-- A queue item as far as the modelled operations inspect it (the item
bodies are opaque pass-through values). -/
structure QueueItem where
  Id : Int
  deriving DecidableEq, BEq, Repr

/-- A release record: the fields read by the modelled operations. -/
structure Release where
  Id : Int
  Key : String
  ProcessKey : String
  Name : String
  deriving DecidableEq, BEq, Repr

/-- A queue definition as read by the dashboard (`Id`, `Name`). -/
structure QueueDefinitionR where
  Id : Int
  Name : String
  deriving DecidableEq, BEq, Repr

-- ============ OData plumbing ============

/-- An error thrown by `request` (its `message` text). -/
structure ODataError where
  message : String
  deriving DecidableEq, BEq, Repr

/-- The body of an OData collection response: `value` plus the optional
`"@odata.count"` field (here named `count`). -/
structure ODataListResponse (α : Type) where
  value : List α
  count : Option Int
  deriving DecidableEq, Repr

/-- JS `x || d` on an optional number (`options.top || 100` etc.):
`undefined` and `0` both fall back to the default. -/
def jsOrInt (v : Option Int) (d : Int) : Int :=
  match v with
  | some x => if x = 0 then d else x
  | none => d

/-- JS `x || d` on an optional string: `undefined` and `""` both fall
back to the default. -/
def jsOrStr (v : Option String) (d : String) : String :=
  match v with
  | some x => if x = "" then d else x
  | none => d

/-- JS truthiness of an optional string (`if (orderBy) ...`). -/
def optStrTruthy : Option String → Bool
  | some s => s != ""
  | none => false

/-- The `$filter` entry built from a (possibly empty) list of predicates
joined with `" and "` (`filters.flatten(" and ")`). -/
def filterParam (filters : List String) : List (String × String) :=
  if filters.isEmpty then [] else [("$filter", String.intercalate " and " filters)]

-- ============ String escaping (lines 63-65 and encodeURIComponent) ============

/-- `escapeODataString` (lines 63-65): `value.replace(/'/g, "''")`. -/
def escapeODataString (value : String) : String :=
  ⟨(value.data.map (fun c => if c = quoteChar then [quoteChar, quoteChar] else [c])).flatten⟩

/-- The characters `encodeURIComponent` leaves unchanged:
`A-Z a-z 0-9 - _ . ! ~ * ' ( )`. -/
def uriUnreservedChar (c : Char) : Bool :=
  c.isAlphanum || c = '-' || c = '_' || c = '.' || c = '!' ||
    c = '~' || c = '*' || c = quoteChar || c = '(' || c = ')'

/-- Uppercase hexadecimal digits. -/
def hexDigits : List Char := "0123456789ABCDEF".data

/-- Percent-encoding of one byte (`%XY` with uppercase hex). -/
def percentByte (b : Nat) : List Char :=
  ['%', hexDigits.getD (b / 16 % 16) '0', hexDigits.getD (b % 16) '0']

/-- The UTF-8 byte sequence of a character. -/
def utf8Bytes (c : Char) : List Nat :=
  let n := c.toNat
  if n < 128 then [n]
  else if n < 2048 then [192 + n / 64, 128 + n % 64]
  else if n < 65536 then [224 + n / 4096, 128 + n / 64 % 64, 128 + n % 64]
  else [240 + n / 262144, 128 + n / 4096 % 64, 128 + n / 64 % 64, 128 + n % 64]

/-- JavaScript `encodeURIComponent`: unreserved characters pass through
unchanged, every other character is replaced by the percent-encoding of
its UTF-8 bytes. -/
def encodeURIComponent (s : String) : String :=
  ⟨(s.data.map (fun c =>
      if uriUnreservedChar c then [c] else ((utf8Bytes c).map percentByte).flatten)).flatten⟩

/-- Number of single-quote characters occurring in a string. -/
def countQuotes (s : String) : Nat :=
  s.data.countP (fun c => c = quoteChar)

-- ============ getQueueItems (lines 232-292) ============

/-- Options of `getQueueItems`. -/
structure QueueItemsOptions where
  queueId : Option Int := none
  status : Option QueueItemStatus := none
  top : Option Int := none
  skip : Option Int := none
  orderBy : Option String := none
  deriving Repr

/-- The `$filter` predicates of `getQueueItems` (lines 253-262):
`queueId` is checked against `undefined`, `status` by truthiness (it is
a non-empty enum string whenever present). -/
def queueItemsFilters (opts : QueueItemsOptions) : List String :=
  (match opts.queueId with
   | some qid => ["QueueDefinitionId eq " ++ toString qid]
   | none => []) ++
  (match opts.status with
   | some s => ["Status eq " ++ sq ++ queueItemStatusName s ++ sq]
   | none => [])

/-- `buildParams` of `getQueueItems` (lines 241-264): `$top` and `$skip`
always (with `||` defaults 100 and 0), `$orderby` when truthy, `$count`
when requested, then the `$filter` conjunction. -/
def queueItemsParams (opts : QueueItemsOptions) (includeCount : Bool)
    (orderBy : Option String) : List (String × String) :=
  [("$top", toString (jsOrInt opts.top 100)),
   ("$skip", toString (jsOrInt opts.skip 0))] ++
  (if optStrTruthy orderBy then [("$orderby", orderBy.getD "")] else []) ++
  (if includeCount then [("$count", "true")] else []) ++
  filterParam (queueItemsFilters opts)

/-- The first, full-featured request of `getQueueItems` (line 271):
`buildParams(true, options.orderBy || "CreationTime desc")`. -/
def queueItemsFullParams (opts : QueueItemsOptions) : List (String × String) :=
  queueItemsParams opts true (some (jsOrStr opts.orderBy "CreationTime desc"))

/-- The retry request of `getQueueItems` (line 280):
`buildParams(false, undefined)`. -/
def queueItemsRetryParams (opts : QueueItemsOptions) : List (String × String) :=
  queueItemsParams opts false none

/-- `getQueueItems` (lines 266-292). `env` maps the query parameters of
a request to the outcome the server would give it. Returns the trace of
issued requests and the result: the full-featured query first; on an
error whose message contains `"Invalid OData query options"`, one retry
with `$count` and `$orderby` dropped; any other error propagates. -/
def getQueueItems (env : List (String × String) → Except ODataError (ODataListResponse QueueItem))
    (opts : QueueItemsOptions) :
    List (List (String × String)) × Except ODataError (List QueueItem × Option Int) :=
  match env (queueItemsFullParams opts) with
  | .ok data => ([queueItemsFullParams opts], .ok (data.value, data.count))
  | .error e =>
      if strContains e.message "Invalid OData query options" then
        match env (queueItemsRetryParams opts) with
        | .ok data =>
            ([queueItemsFullParams opts, queueItemsRetryParams opts],
             .ok (data.value, data.count))
        | .error e2 =>
            ([queueItemsFullParams opts, queueItemsRetryParams opts], .error e2)
      else ([queueItemsFullParams opts], .error e)

-- ============ getJobs (lines 809-869) ============

/-- Options of `getJobs`. -/
structure JobsOptions where
  state : Option JobState := none
  releaseName : Option String := none
  top : Option Int := none
  skip : Option Int := none
  orderBy : Option String := none
  deriving Repr

/-- The `$filter` predicates of `getJobs` (lines 830-839): both guards
are truthiness checks; `releaseName` is interpolated through
`encodeURIComponent`. -/
def jobsFilters (opts : JobsOptions) : List String :=
  (match opts.state with
   | some s => ["State eq " ++ sq ++ jobStateName s ++ sq]
   | none => []) ++
  (match opts.releaseName with
   | some r =>
       if r = "" then []
       else ["ReleaseName eq " ++ sq ++ encodeURIComponent r ++ sq]
   | none => [])

/-- `buildParams` of `getJobs` (lines 818-841). -/
def jobsParams (opts : JobsOptions) (includeCount : Bool)
    (orderBy : Option String) : List (String × String) :=
  [("$top", toString (jsOrInt opts.top 100)),
   ("$skip", toString (jsOrInt opts.skip 0))] ++
  (if optStrTruthy orderBy then [("$orderby", orderBy.getD "")] else []) ++
  (if includeCount then [("$count", "true")] else []) ++
  filterParam (jobsFilters opts)

/-- The first, full-featured request of `getJobs` (line 848). -/
def jobsFullParams (opts : JobsOptions) : List (String × String) :=
  jobsParams opts true (some (jsOrStr opts.orderBy "CreationTime desc"))

/-- The retry request of `getJobs` (line 857). -/
def jobsRetryParams (opts : JobsOptions) : List (String × String) :=
  jobsParams opts false none

/-- `getJobs` (lines 843-869): same full-query-then-retry shape as
`getQueueItems`. -/
def getJobs (env : List (String × String) → Except ODataError (ODataListResponse Job))
    (opts : JobsOptions) :
    List (List (String × String)) × Except ODataError (List Job × Option Int) :=
  match env (jobsFullParams opts) with
  | .ok data => ([jobsFullParams opts], .ok (data.value, data.count))
  | .error e =>
      if strContains e.message "Invalid OData query options" then
        match env (jobsRetryParams opts) with
        | .ok data =>
            ([jobsFullParams opts, jobsRetryParams opts],
             .ok (data.value, data.count))
        | .error e2 =>
            ([jobsFullParams opts, jobsRetryParams opts], .error e2)
      else ([jobsFullParams opts], .error e)

-- ============ getQueueStats (lines 345-402) ============

/-- `QueueStats` (types.ts lines 331-341), with the rate as an exact
rational. -/
structure QueueStats where
  queueId : Int
  queueName : String
  totalItems : Int
  newItems : Int
  inProgressItems : Int
  successfulItems : Int
  failedItems : Int
  abandonedItems : Int
  successRate : Option ℚ
  deriving DecidableEq, Repr

/-- The fixed status order of the per-status loop (lines 359-365). -/
def queueStatsStatuses : List QueueItemStatus :=
  [.New, .InProgress, .Successful, .Failed, .Abandoned]

/-- One iteration of the per-status loop (lines 367-394):
`itemCount = count || 0` is added to `totalItems` and stored in the
status's own field. -/
def queueStatsStep (stats : QueueStats) (status : QueueItemStatus)
    (count : Option Int) : QueueStats :=
  let itemCount := count.getD 0
  let stats := { stats with totalItems := stats.totalItems + itemCount }
  match status with
  | .New => { stats with newItems := itemCount }
  | .InProgress => { stats with inProgressItems := itemCount }
  | .Successful => { stats with successfulItems := itemCount }
  | .Failed => { stats with failedItems := itemCount }
  | .Abandoned => { stats with abandonedItems := itemCount }
  | _ => stats

/-- `getQueueStats` (lines 345-402). `counts` is the `count` field each
per-status `getQueueItems({queueId, status, top: 1})` call returns
(`none` when the query-builder fallback made the total unknown). -/
def getQueueStats (queueId : Int) (queueName : String)
    (counts : QueueItemStatus → Option Int) : QueueStats :=
  let init : QueueStats :=
    { queueId := queueId, queueName := queueName, totalItems := 0,
      newItems := 0, inProgressItems := 0, successfulItems := 0,
      failedItems := 0, abandonedItems := 0, successRate := none }
  let stats := queueStatsStatuses.foldl
    (fun st status => queueStatsStep st status (counts status)) init
  let completed := stats.successfulItems + stats.failedItems
  if 0 < completed then
    { stats with
        successRate := some ((stats.successfulItems : ℚ) / (completed : ℚ) * 100) }
  else stats

-- ============ getJobStats (lines 948-1045) ============

/-- `JobStats` (types.ts lines 343-351), with the rate as an exact
rational. -/
structure JobStats where
  totalJobs : Int
  pendingJobs : Int
  runningJobs : Int
  successfulJobs : Int
  faultedJobs : Int
  stoppedJobs : Int
  successRate : Option ℚ
  deriving DecidableEq, Repr

/-- The all-zero `stats` object of line 950 (and the reset of lines
1007-1012). -/
def initJobStats : JobStats :=
  { totalJobs := 0, pendingJobs := 0, runningJobs := 0,
    successfulJobs := 0, faultedJobs := 0, stoppedJobs := 0,
    successRate := none }

/-- Outcome of one per-state `getJobs({state, top: 1})` call as seen by
the loop: a thrown exception, or a returned count (possibly `null`). -/
inductive CountOutcome where
  | ok (count : Option Int)
  | err
  deriving DecidableEq, Repr

/-- The fixed state order of the per-state loop (lines 963-970). -/
def jobStatsStates : List JobState :=
  [.Pending, .Running, .Successful, .Faulted, .Stopped, .Terminated]

/-- One iteration of the per-state loop body (lines 980-999): the count
is added to `totalJobs` and stored per state, with `Stopped` and
`Terminated` both accumulating into `stoppedJobs`. -/
def jobStatsStep (stats : JobStats) (state : JobState) (count : Int) : JobStats :=
  let stats := { stats with totalJobs := stats.totalJobs + count }
  match state with
  | .Pending => { stats with pendingJobs := count }
  | .Running => { stats with runningJobs := count }
  | .Successful => { stats with successfulJobs := count }
  | .Faulted => { stats with faultedJobs := count }
  | .Stopped => { stats with stoppedJobs := stats.stoppedJobs + count }
  | .Terminated => { stats with stoppedJobs := stats.stoppedJobs + count }
  | _ => stats

/-- The `try`-wrapped per-state loop (lines 972-1003): a `null` count
sets `useFallback` and breaks; an exception is caught by the
surrounding `try` and sets `useFallback`. Returns the accumulated
stats and the `useFallback` flag. -/
def jobStatsLoop (q : JobState → CountOutcome) :
    List JobState → JobStats → JobStats × Bool
  | [], stats => (stats, false)
  | state :: rest, stats =>
      match q state with
      | .err => (stats, true)
      | .ok none => (stats, true)
      | .ok (some c) => jobStatsLoop q rest (jobStatsStep stats state c)

/-- One step of the client-side tally (lines 1017-1036): increment the
bucket of the job's state, with `Stopped` and `Terminated` folded
together; other states only count toward `totalJobs`. -/
def jobTallyStep (stats : JobStats) (state : JobState) : JobStats :=
  match state with
  | .Pending => { stats with pendingJobs := stats.pendingJobs + 1 }
  | .Running => { stats with runningJobs := stats.runningJobs + 1 }
  | .Successful => { stats with successfulJobs := stats.successfulJobs + 1 }
  | .Faulted => { stats with faultedJobs := stats.faultedJobs + 1 }
  | .Stopped => { stats with stoppedJobs := stats.stoppedJobs + 1 }
  | .Terminated => { stats with stoppedJobs := stats.stoppedJobs + 1 }
  | _ => stats

/-- The whole fallback branch (lines 1005-1037): reset every counter,
set `totalJobs` to the fetched page's length, and tally states
client-side. -/
def tallyJobStats (jobs : List Job) : JobStats :=
  jobs.foldl (fun st j => jobTallyStep st j.State)
    { initJobStats with totalJobs := (jobs.length : Int) }

/-- The success-rate epilogue (lines 1039-1042). -/
def applyJobSuccessRate (stats : JobStats) : JobStats :=
  let completed := stats.successfulJobs + stats.faultedJobs
  if 0 < completed then
    { stats with
        successRate := some ((stats.successfulJobs : ℚ) / (completed : ℚ) * 100) }
  else stats

/-- `getJobStats` (lines 948-1045). `q` gives each per-state count
query's outcome; `rawJobs` is the page the fallback fetch
`getJobs({top: 1000})` would return. -/
def getJobStats (q : JobState → CountOutcome) (rawJobs : List Job) : JobStats :=
  let res := jobStatsLoop q jobStatsStates initJobStats
  let stats := if res.2 then tallyJobStats rawJobs else res.1
  applyJobSuccessRate stats

-- ============ getProcessPerformance (lines 1247-1290) ============

/-- JavaScript `Math.round` on an exact rational: round half toward
positive infinity. -/
def jsRoundQ (q : ℚ) : Int := ⌊q + 1 / 2⌋

/-- `ProcessPerformance` (types.ts lines 368-381), durations in seconds
and the rate as an exact rational. -/
structure ProcessPerformance where
  processName : String
  totalExecutions : Nat
  successful : Nat
  faulted : Nat
  stopped : Nat
  running : Nat
  pending : Nat
  successRate : Option ℚ
  avgDurationSeconds : Option Int
  minDurationSeconds : Option Int
  maxDurationSeconds : Option Int
  recentJobs : List Job
  deriving Repr

/-- `getProcessPerformance` (lines 1247-1290). `jobs` is the page
returned by the underlying `getJobs` call for the release name. -/
def getProcessPerformance (parse : String → Option Int)
    (processName : String) (jobs : List Job) : ProcessPerformance :=
  let successful := jobs.filter (fun j => decide (j.State = JobState.Successful))
  let faulted := jobs.filter (fun j => decide (j.State = JobState.Faulted))
  let stopped := jobs.filter
    (fun j => decide (j.State = JobState.Stopped) || decide (j.State = JobState.Terminated))
  let running := jobs.filter (fun j => decide (j.State = JobState.Running))
  let pending := jobs.filter (fun j => decide (j.State = JobState.Pending))
  let durations := (successful.map
    (fun j => computeDuration parse j.StartTime j.EndTime)).filterMap id
  let completed := successful.length + faulted.length
  { processName := processName
    totalExecutions := jobs.length
    successful := successful.length
    faulted := faulted.length
    stopped := stopped.length
    running := running.length
    pending := pending.length
    successRate :=
      if 0 < completed then
        some ((successful.length : ℚ) / (completed : ℚ) * 100)
      else none
    avgDurationSeconds :=
      if 0 < durations.length then
        some (jsRoundQ ((durations.sum : ℚ) / (durations.length : ℚ)))
      else none
    minDurationSeconds := durations.min?
    maxDurationSeconds := durations.max?
    recentJobs := jobs.take 10 }

-- ============ getDashboardSummary (lines 1106-1160) ============

/-- The `queueItemsByStatus` accumulator (lines 1121-1126). -/
structure DashQueueCounts where
  New : Int
  InProgress : Int
  Successful : Int
  Failed : Int
  deriving DecidableEq, Repr

/-- The `jobsByState` record (lines 1149-1155). -/
structure DashJobsByState where
  Pending : Int
  Running : Int
  Successful : Int
  Faulted : Int
  Stopped : Int
  deriving DecidableEq, Repr

/-- The dashboard summary return value (lines 1106-1115). -/
structure DashboardSummary where
  totalQueues : Nat
  totalQueueItems : Int
  queueItemsByStatus : DashQueueCounts
  totalJobs : Int
  jobsByState : DashJobsByState
  activeJobs : Int
  successRateJobs : Option ℚ
  successRateQueues : Option ℚ
  deriving DecidableEq, Repr

/-- One iteration of the per-queue loop (lines 1129-1136), adding one
sampled queue's statistics to the accumulators. -/
def dashQueueStep (queueCounts : Int → String → QueueItemStatus → Option Int)
    (acc : DashQueueCounts × Int) (q : QueueDefinitionR) : DashQueueCounts × Int :=
  let stats := getQueueStats q.Id q.Name (queueCounts q.Id q.Name)
  ({ New := acc.1.New + stats.newItems
     InProgress := acc.1.InProgress + stats.inProgressItems
     Successful := acc.1.Successful + stats.successfulItems
     Failed := acc.1.Failed + stats.failedItems },
   acc.2 + stats.totalItems)

/-- `getDashboardSummary` (lines 1106-1160). `queues` is the fetched
queue-definition list, `jobStats` the `getJobStats` result, and
`queueCounts` the per-status counts a `getQueueStats` sub-fetch for a
given queue would see. Returns the summary together with the list of
`(Id, Name)` pairs for which per-queue statistics sub-fetches were
issued. -/
def getDashboardSummary (queues : List QueueDefinitionR) (jobStats : JobStats)
    (queueCounts : Int → String → QueueItemStatus → Option Int) :
    DashboardSummary × List (Int × String) :=
  let sampled := queues.take 5
  let fetches := sampled.map (fun q => (q.Id, q.Name))
  let res := sampled.foldl (dashQueueStep queueCounts)
    ({ New := 0, InProgress := 0, Successful := 0, Failed := 0 }, 0)
  let byStatus := res.1
  let completedItems := byStatus.Successful + byStatus.Failed
  ({ totalQueues := queues.length
     totalQueueItems := res.2
     queueItemsByStatus := byStatus
     totalJobs := jobStats.totalJobs
     jobsByState :=
       { Pending := jobStats.pendingJobs
         Running := jobStats.runningJobs
         Successful := jobStats.successfulJobs
         Faulted := jobStats.faultedJobs
         Stopped := jobStats.stoppedJobs }
     activeJobs := jobStats.pendingJobs + jobStats.runningJobs
     successRateJobs := jobStats.successRate
     successRateQueues :=
       if 0 < completedItems then
         some ((byStatus.Successful : ℚ) / (completedItems : ℚ) * 100)
       else none },
   fetches)

-- ============ findReleaseByNameOrKey (lines 1055-1096) ============

/-- The two release queries `findReleaseByNameOrKey` can issue: the
`ProcessKey eq '...'` query of `getReleases` (line 1059) and the
`Name eq '...'` query of line 1086. -/
inductive ReleaseQuery where
  | byKey (key : String)
  | byName (name : String)
  deriving DecidableEq, Repr

/-- `findReleaseByNameOrKey` (lines 1078-1096). `env` gives the release
list each query would return. Returns the trace of issued queries and
the result (`data.value[0] || null`). -/
def findReleaseByNameOrKey (env : ReleaseQuery → List Release)
    (nameOrKey : String) : List ReleaseQuery × Option Release :=
  match env (.byKey nameOrKey) with
  | r :: _ => ([.byKey nameOrKey], some r)
  | [] =>
      ([.byKey nameOrKey, .byName nameOrKey],
       (env (.byName nameOrKey)).head?)

-- ============ getRobots routing (lines 59-61, 440-463) ============

/-- `getFolderId` (lines 59-61): `folderId ?? this.defaultFolderId`. -/
def getFolderId (defaultFolderId folderId : Option Int) : Option Int :=
  match folderId with
  | some f => some f
  | none => defaultFolderId

/-- The folder-specific robots sub-route (line 455). -/
def robotsFromFolderRoute (n : Int) : String :=
  "/odata/Robots/UiPath.Server.Configuration.OData.GetRobotsFromFolder(folderId="
    ++ toString n ++ ")"

/-- The endpoint selection of `getRobots` (lines 454-456):
`effectiveFolderId ? folderRoute : "/odata/Robots"` — a truthiness
test, under which an id of `0` behaves like an absent one. -/
def getRobotsEndpoint (defaultFolderId folderId : Option Int) : String :=
  match getFolderId defaultFolderId folderId with
  | some n => if n = 0 then "/odata/Robots" else robotsFromFolderRoute n
  | none => "/odata/Robots"

-- ============ Filter construction for escaping claims ============

/-- The query parameters of `getQueueDefinitionByName` (line 214):
`Name eq '${encodeURIComponent(name)}'`. -/
def queueDefinitionByNameParams (name : String) : List (String × String) :=
  [("$filter", "Name eq " ++ sq ++ encodeURIComponent name ++ sq)]

/-- The `$filter` predicates of `getAuditLogs` (lines 754-769): the
three string fields go through `escapeODataString`, all guards are
truthiness checks. -/
def auditLogsFilters (action userName component startTime endTime : Option String) :
    List String :=
  (match action with
   | some a => if a = "" then [] else ["Action eq " ++ sq ++ escapeODataString a ++ sq]
   | none => []) ++
  (match userName with
   | some u => if u = "" then [] else ["UserName eq " ++ sq ++ escapeODataString u ++ sq]
   | none => []) ++
  (match component with
   | some c => if c = "" then [] else ["Component eq " ++ sq ++ escapeODataString c ++ sq]
   | none => []) ++
  (match startTime with
   | some t => if t = "" then [] else ["ExecutionTime ge " ++ t]
   | none => []) ++
  (match endTime with
   | some t => if t = "" then [] else ["ExecutionTime le " ++ t]
   | none => [])

/-- The `Name eq '...'` query parameters of the name fallback inside
`findReleaseByNameOrKey` (lines 1085-1087): `escapeODataString`. -/
def releaseNameLookupParams (nameOrKey : String) : List (String × String) :=
  [("$filter", "Name eq " ++ sq ++ escapeODataString nameOrKey ++ sq)]

/-- The `ReleaseName` predicate of `getFaultedJobs` (line 1188):
`escapeODataString`. -/
def faultedJobsReleaseFilter (releaseName : String) : String :=
  "ReleaseName eq " ++ sq ++ escapeODataString releaseName ++ sq

/-- The `JobKey` and `Level` predicates of `getRobotLogs`
(lines 537, 540): `encodeURIComponent`. -/
def robotLogsJobKeyFilter (jobKey : String) : String :=
  "JobKey eq " ++ sq ++ encodeURIComponent jobKey ++ sq

/-- The `Level` predicate of `getRobotLogs` (line 540). -/
def robotLogsLevelFilter (level : String) : String :=
  "Level eq " ++ sq ++ encodeURIComponent level ++ sq

-- ============ Concrete environments for witnesses ============

/-- A server that rejects every queue-item query with a message that
contains `"Invalid OData"` but not `"Invalid OData query options"`. -/
def invalidODataEnvQ :
    List (String × String) → Except ODataError (ODataListResponse QueueItem) :=
  fun _ => .error { message := "API request failed (400): Invalid OData." }

/-- A server that rejects the full-featured default queue-item query
with the exact fallback signature and answers anything else with an
empty, uncounted page. -/
def fallbackEnvQ :
    List (String × String) → Except ODataError (ODataListResponse QueueItem) :=
  fun p =>
    if p = queueItemsFullParams {} then
      .error { message := "API request failed (400): Invalid OData query options" }
    else .ok { value := [], count := none }

end UiPath

namespace UiPath

/-- C1: `ensureToken` returns the cached token with zero network calls
iff a (non-empty, per the source's truthiness guard) cached token exists
and `now` is strictly before `expiresAt` minus 5 minutes; in every other
case it issues exactly one exchange request, and a successful exchange
caches the returned token with `expiresAt = now + expires_in` seconds. -/
theorem ensureToken_cache_iff (st : ClientTokenState) (now : Int)
    (exchange : ExchangeOutcome) :
    (((ensureToken st now exchange).networkCalls = 0 ∧
      (ensureToken st now exchange).result = .ok (st.accessToken.getD "") ∧
      (ensureToken st now exchange).state = st) ↔
      (∃ tok exp, st.accessToken = some tok ∧ tok ≠ "" ∧
        st.tokenExpiresAt = some exp ∧ now < exp - tokenBufferMs)) ∧
    (¬ (∃ tok exp, st.accessToken = some tok ∧ tok ≠ "" ∧
        st.tokenExpiresAt = some exp ∧ now < exp - tokenBufferMs) →
      (ensureToken st now exchange).networkCalls = 1 ∧
      (∀ resp, exchange = .success resp →
        (ensureToken st now exchange).result = .ok resp.access_token ∧
        (ensureToken st now exchange).state =
          { accessToken := some resp.access_token
            tokenExpiresAt := some (now + resp.expires_in * 1000) })) := by
  have husable : tokenCacheUsable st now = true ↔
      (∃ tok exp, st.accessToken = some tok ∧ tok ≠ "" ∧
        st.tokenExpiresAt = some exp ∧ now < exp - tokenBufferMs) := by
    constructor
    · intro h
      unfold tokenCacheUsable at h
      match hga : st.accessToken, hge : st.tokenExpiresAt with
      | some tok, some exp =>
        rw [hga, hge] at h
        simp only [Bool.and_eq_true, bne_iff_ne, ne_eq, decide_eq_true_eq] at h
        exact ⟨tok, exp, rfl, h.1, rfl, h.2⟩
      | some tok, none => rw [hga, hge] at h; simp at h
      | none, some exp => rw [hga, hge] at h; simp at h
      | none, none => rw [hga, hge] at h; simp at h
    · rintro ⟨tok, exp, h1, h2, h3, h4⟩
      unfold tokenCacheUsable
      rw [h1, h3]
      simp only [Bool.and_eq_true, bne_iff_ne, ne_eq, decide_eq_true_eq]
      exact ⟨h2, h4⟩
  by_cases hc : tokenCacheUsable st now = true
  · constructor
    · rw [← husable]
      constructor
      · intro _; exact hc
      · intro _
        unfold ensureToken
        rw [if_pos hc]
        exact ⟨rfl, rfl, rfl⟩
    · intro hn
      exact absurd (husable.mp hc) hn
  · have hc' : tokenCacheUsable st now = false := by
      cases h : tokenCacheUsable st now
      · rfl
      · exact absurd h hc
    constructor
    · constructor
      · intro h
        unfold ensureToken at h
        rw [hc'] at h
        cases exchange with
        | success resp => simp at h
        | failure body => simp at h
      · intro h
        exact absurd (husable.mpr h) hc
    · intro _
      unfold ensureToken
      rw [hc']
      cases exchange with
      | success resp =>
        refine ⟨rfl, ?_⟩
        intro r hr
        cases hr
        exact ⟨rfl, rfl⟩
      | failure body =>
        refine ⟨rfl, ?_⟩
        intro r hr
        cases hr

/-- Witness for C1 at concrete inputs: a cached non-empty token valid
far beyond the 5-minute buffer is returned with zero network calls. -/
theorem ensureToken_cache_iff_witness :
    (ensureToken ⟨some "tok", some 1000000⟩ 0 (.failure "x")).networkCalls = 0 :=
  ((ensureToken_cache_iff ⟨some "tok", some 1000000⟩ 0 (.failure "x")).1.mpr
    ⟨"tok", 1000000, rfl, by decide, rfl, by decide⟩).1

end UiPath

namespace UiPath

/-- C5: `computeDuration` returns `round((end - start) / 1000)` for every
pair of timestamps the host parser accepts, returns `null` when either
input is absent or fails to parse, and yields a non-negative integer
whenever `end >= start`. The hypothesis `parse "" = none` reflects the
host parser (`new Date("")` is an Invalid Date). -/
theorem computeDuration_spec (parse : String → Option Int)
    (hempty : parse "" = none) :
    (∀ e, computeDuration parse none e = none) ∧
    (∀ s, computeDuration parse s none = none) ∧
    (∀ s e, parse s = none → computeDuration parse (some s) (some e) = none) ∧
    (∀ s e, parse e = none → computeDuration parse (some s) (some e) = none) ∧
    (∀ s e a b, parse s = some a → parse e = some b →
      computeDuration parse (some s) (some e) = some (jsRoundDiv1000 (b - a))) ∧
    (∀ s e a b, parse s = some a → parse e = some b → a ≤ b →
      ∃ r, computeDuration parse (some s) (some e) = some r ∧ 0 ≤ r) := by
  have hmain : ∀ s e a b, parse s = some a → parse e = some b →
      computeDuration parse (some s) (some e) = some (jsRoundDiv1000 (b - a)) := by
    intro s e a b hs he
    have hs' : s ≠ "" := by
      intro h; rw [h, hempty] at hs; cases hs
    have he' : e ≠ "" := by
      intro h; rw [h, hempty] at he; cases he
    simp [computeDuration, hs', he', hs, he]
  refine ⟨?_, ?_, ?_, ?_, hmain, ?_⟩
  · intro e; cases e <;> rfl
  · intro s; cases s <;> rfl
  · intro s e hp
    by_cases hs : s = ""
    · simp [computeDuration, hs]
    · by_cases he : e = ""
      · simp [computeDuration, he]
      · cases hpe : parse e <;> simp [computeDuration, hs, he, hp, hpe]
  · intro s e hq
    by_cases hs : s = ""
    · simp [computeDuration, hs]
    · by_cases he : e = ""
      · simp [computeDuration, he]
      · cases hps : parse s <;> simp [computeDuration, hs, he, hq, hps]
  · intro s e a b hs he hab
    refine ⟨jsRoundDiv1000 (b - a), hmain s e a b hs he, ?_⟩
    unfold jsRoundDiv1000
    have h1 : (0 : Int) ≤ b - a + 500 := by omega
    exact Int.fdiv_nonneg h1 (by norm_num)

/-- Witness for C5: the spec scenario, a job running from 10:00:00 to
10:02:00 has a computed duration of 120 seconds. -/
theorem computeDuration_spec_witness :
    computeDuration duraParse (some "2024-01-01T10:00:00Z")
      (some "2024-01-01T10:02:00Z") = some 120 := by
  have h := (computeDuration_spec duraParse (by decide)).2.2.2.2.1
    "2024-01-01T10:00:00Z" "2024-01-01T10:02:00Z"
    1704103200000 1704103320000 (by decide) (by decide)
  rw [h]
  decide

end UiPath

namespace UiPath

-- ============ Helper lemmas ============

theorem jsOrStr_ne_empty (v : Option String) (d : String) (hd : d ≠ "") :
    jsOrStr v d ≠ "" := by
  cases v with
  | none => exact hd
  | some x =>
    by_cases hx : x = "" <;> simp [jsOrStr, hx, hd]

theorem jobStatsStep_rate (stats : JobStats) (state : JobState) (c : Int) :
    (jobStatsStep stats state c).successRate = stats.successRate := by
  cases state <;> simp [jobStatsStep]

theorem jobStatsLoop_rate (q : JobState → CountOutcome) (l : List JobState) :
    ∀ stats : JobStats, (jobStatsLoop q l stats).1.successRate = stats.successRate ∨
      (jobStatsLoop q l stats).2 = true := by
  induction l with
  | nil => intro stats; left; rfl
  | cons state rest ih =>
    intro stats
    cases hq : q state with
    | err => right; simp [jobStatsLoop, hq]
    | ok c =>
      cases c with
      | none => right; simp [jobStatsLoop, hq]
      | some n =>
        rcases ih (jobStatsStep stats state n) with h | h
        · left; simpa [jobStatsLoop, hq, jobStatsStep_rate] using h
        · right; simpa [jobStatsLoop, hq] using h

theorem jobTallyStep_rate (stats : JobStats) (state : JobState) :
    (jobTallyStep stats state).successRate = stats.successRate := by
  cases state <;> simp [jobTallyStep]

theorem tallyFold_rate (jobs : List Job) :
    ∀ stats : JobStats,
      (jobs.foldl (fun st j => jobTallyStep st j.State) stats).successRate =
        stats.successRate := by
  induction jobs with
  | nil => intro stats; rfl
  | cons j rest ih =>
    intro stats
    rw [List.foldl_cons, ih, jobTallyStep_rate]

theorem tallyJobStats_rate (jobs : List Job) :
    (tallyJobStats jobs).successRate = none := by
  unfold tallyJobStats
  rw [tallyFold_rate]
  rfl

theorem applyJobSuccessRate_spec (stats : JobStats) (hnone : stats.successRate = none) :
    ((applyJobSuccessRate stats).successfulJobs + (applyJobSuccessRate stats).faultedJobs = 0 →
      (applyJobSuccessRate stats).successRate = none) ∧
    (0 < (applyJobSuccessRate stats).successfulJobs + (applyJobSuccessRate stats).faultedJobs →
      (applyJobSuccessRate stats).successRate =
        some (((applyJobSuccessRate stats).successfulJobs : ℚ) /
          (((applyJobSuccessRate stats).successfulJobs +
            (applyJobSuccessRate stats).faultedJobs : Int) : ℚ) * 100)) := by
  by_cases hpos : 0 < stats.successfulJobs + stats.faultedJobs
  · constructor
    · intro h0
      simp [applyJobSuccessRate, hpos] at h0
      exact absurd h0 (by omega)
    · intro _
      simp [applyJobSuccessRate, hpos]
  · constructor
    · intro _
      simp [applyJobSuccessRate, hpos, hnone]
    · intro hp
      exfalso
      simp [applyJobSuccessRate, hpos] at hp

theorem getJobStats_rate_aux (q : JobState → CountOutcome) (rawJobs : List Job) :
    ((getJobStats q rawJobs).successfulJobs + (getJobStats q rawJobs).faultedJobs = 0 →
      (getJobStats q rawJobs).successRate = none) ∧
    (0 < (getJobStats q rawJobs).successfulJobs + (getJobStats q rawJobs).faultedJobs →
      (getJobStats q rawJobs).successRate =
        some (((getJobStats q rawJobs).successfulJobs : ℚ) /
          (((getJobStats q rawJobs).successfulJobs +
            (getJobStats q rawJobs).faultedJobs : Int) : ℚ) * 100)) := by
  by_cases hfb : (jobStatsLoop q jobStatsStates initJobStats).2 = true
  · have heq : getJobStats q rawJobs = applyJobSuccessRate (tallyJobStats rawJobs) := by
      simp [getJobStats, hfb]
    rw [heq]
    exact applyJobSuccessRate_spec _ (tallyJobStats_rate rawJobs)
  · have heq : getJobStats q rawJobs =
        applyJobSuccessRate (jobStatsLoop q jobStatsStates initJobStats).1 := by
      simp [getJobStats, hfb]
    rw [heq]
    rcases jobStatsLoop_rate q jobStatsStates initJobStats with h | h
    · exact applyJobSuccessRate_spec _ (by rw [h]; rfl)
    · exact absurd h hfb

theorem queueStats_rate_aux (qid : Int) (qn : String)
    (counts : QueueItemStatus → Option Int) :
    ((getQueueStats qid qn counts).successfulItems +
        (getQueueStats qid qn counts).failedItems = 0 →
      (getQueueStats qid qn counts).successRate = none) ∧
    (0 < (getQueueStats qid qn counts).successfulItems +
        (getQueueStats qid qn counts).failedItems →
      (getQueueStats qid qn counts).successRate =
        some (((getQueueStats qid qn counts).successfulItems : ℚ) /
          (((getQueueStats qid qn counts).successfulItems +
            (getQueueStats qid qn counts).failedItems : Int) : ℚ) * 100)) := by
  simp only [getQueueStats, queueStatsStatuses, queueStatsStep]
  constructor
  · intro h
    simp at h ⊢
    split <;> simp_all
  · intro h
    simp at h ⊢
    split <;> simp_all

theorem perf_rate_aux (parse : String → Option Int) (pname : String) (jobs : List Job) :
    ((getProcessPerformance parse pname jobs).successful +
        (getProcessPerformance parse pname jobs).faulted = 0 →
      (getProcessPerformance parse pname jobs).successRate = none) ∧
    (0 < (getProcessPerformance parse pname jobs).successful +
        (getProcessPerformance parse pname jobs).faulted →
      (getProcessPerformance parse pname jobs).successRate =
        some (((getProcessPerformance parse pname jobs).successful : ℚ) /
          (((getProcessPerformance parse pname jobs).successful +
            (getProcessPerformance parse pname jobs).faulted : Nat) : ℚ) * 100)) := by
  by_cases hpos : 0 < (jobs.filter (fun j => decide (j.State = JobState.Successful))).length +
      (jobs.filter (fun j => decide (j.State = JobState.Faulted))).length
  · constructor
    · intro h0
      simp [getProcessPerformance, -List.length_eq_zero] at h0
      omega
    · intro _
      simp [getProcessPerformance, hpos]
  · constructor
    · intro _
      simp [getProcessPerformance, hpos]
    · intro hp
      exfalso
      simp [getProcessPerformance, -List.length_eq_zero] at hp
      omega

theorem dash_rate_aux (queues : List QueueDefinitionR) (jstats : JobStats)
    (qc : Int → String → QueueItemStatus → Option Int) :
    ((getDashboardSummary queues jstats qc).1.queueItemsByStatus.Successful +
        (getDashboardSummary queues jstats qc).1.queueItemsByStatus.Failed = 0 →
      (getDashboardSummary queues jstats qc).1.successRateQueues = none) ∧
    (0 < (getDashboardSummary queues jstats qc).1.queueItemsByStatus.Successful +
        (getDashboardSummary queues jstats qc).1.queueItemsByStatus.Failed →
      (getDashboardSummary queues jstats qc).1.successRateQueues =
        some (((getDashboardSummary queues jstats qc).1.queueItemsByStatus.Successful : ℚ) /
          (((getDashboardSummary queues jstats qc).1.queueItemsByStatus.Successful +
            (getDashboardSummary queues jstats qc).1.queueItemsByStatus.Failed : Int) : ℚ) *
          100)) := by
  set res := (queues.take 5).foldl (dashQueueStep qc)
    ({ New := 0, InProgress := 0, Successful := 0, Failed := 0 }, 0) with hres
  by_cases hpos : 0 < res.1.Successful + res.1.Failed
  · constructor
    · intro h0
      simp [getDashboardSummary, ← hres] at h0
      omega
    · intro _
      simp [getDashboardSummary, ← hres, hpos]
  · constructor
    · intro _
      simp [getDashboardSummary, ← hres, hpos]
    · intro hp
      exfalso
      simp [getDashboardSummary, ← hres] at hp
      omega

theorem jobStatsLoop_fallback (q : JobState → CountOutcome) (l : List JobState) :
    ∀ stats : JobStats,
      (∃ s ∈ l, q s = .err ∨ q s = .ok none) →
      (jobStatsLoop q l stats).2 = true := by
  induction l with
  | nil => intro stats h; simp at h
  | cons state rest ih =>
    intro stats h
    cases hq : q state with
    | err => simp [jobStatsLoop, hq]
    | ok c =>
      cases c with
      | none => simp [jobStatsLoop, hq]
      | some n =>
        have h' : ∃ s ∈ rest, q s = .err ∨ q s = .ok none := by
          rcases h with ⟨s, hmem, hbad⟩
          rcases List.mem_cons.mp hmem with h1 | h2
          · subst h1
            rw [hq] at hbad
            rcases hbad with h | h <;> simp at h
          · exact ⟨s, h2, hbad⟩
        simpa [jobStatsLoop, hq] using ih (jobStatsStep stats state n) h'

theorem jobTallyFold (jobs : List Job) :
    ∀ st : JobStats,
      jobs.foldl (fun s j => jobTallyStep s j.State) st =
        { st with
          pendingJobs := st.pendingJobs +
            (jobs.countP (fun j => decide (j.State = JobState.Pending)) : Int)
          runningJobs := st.runningJobs +
            (jobs.countP (fun j => decide (j.State = JobState.Running)) : Int)
          successfulJobs := st.successfulJobs +
            (jobs.countP (fun j => decide (j.State = JobState.Successful)) : Int)
          faultedJobs := st.faultedJobs +
            (jobs.countP (fun j => decide (j.State = JobState.Faulted)) : Int)
          stoppedJobs := st.stoppedJobs +
            (jobs.countP (fun j => decide (j.State = JobState.Stopped) ||
              decide (j.State = JobState.Terminated)) : Int) } := by
  induction jobs with
  | nil =>
    intro st
    simp
  | cons j rest ih =>
    intro st
    rw [List.foldl_cons, ih]
    cases hstate : j.State <;>
      simp [jobTallyStep, List.countP_cons, hstate] <;>
      push_cast <;>
      ring

theorem tallyJobStats_closed (jobs : List Job) :
    tallyJobStats jobs =
      { totalJobs := (jobs.length : Int)
        pendingJobs := (jobs.countP (fun j => decide (j.State = JobState.Pending)) : Int)
        runningJobs := (jobs.countP (fun j => decide (j.State = JobState.Running)) : Int)
        successfulJobs := (jobs.countP (fun j => decide (j.State = JobState.Successful)) : Int)
        faultedJobs := (jobs.countP (fun j => decide (j.State = JobState.Faulted)) : Int)
        stoppedJobs := (jobs.countP (fun j => decide (j.State = JobState.Stopped) ||
          decide (j.State = JobState.Terminated)) : Int)
        successRate := none } := by
  unfold tallyJobStats
  rw [jobTallyFold]
  simp [initJobStats]

theorem dashFold (qc : Int → String → QueueItemStatus → Option Int)
    (l : List QueueDefinitionR) :
    ∀ acc : DashQueueCounts × Int,
      (l.foldl (dashQueueStep qc) acc).1.New = acc.1.New +
        (l.map (fun q => (getQueueStats q.Id q.Name (qc q.Id q.Name)).newItems)).sum ∧
      (l.foldl (dashQueueStep qc) acc).1.InProgress = acc.1.InProgress +
        (l.map (fun q => (getQueueStats q.Id q.Name (qc q.Id q.Name)).inProgressItems)).sum ∧
      (l.foldl (dashQueueStep qc) acc).1.Successful = acc.1.Successful +
        (l.map (fun q => (getQueueStats q.Id q.Name (qc q.Id q.Name)).successfulItems)).sum ∧
      (l.foldl (dashQueueStep qc) acc).1.Failed = acc.1.Failed +
        (l.map (fun q => (getQueueStats q.Id q.Name (qc q.Id q.Name)).failedItems)).sum ∧
      (l.foldl (dashQueueStep qc) acc).2 = acc.2 +
        (l.map (fun q => (getQueueStats q.Id q.Name (qc q.Id q.Name)).totalItems)).sum := by
  induction l with
  | nil => intro acc; simp
  | cons q rest ih =>
    intro acc
    rw [List.foldl_cons]
    have h := ih (dashQueueStep qc acc q)
    refine ⟨?_, ?_, ?_, ?_, ?_⟩
    · rw [h.1]; simp [dashQueueStep]; ring
    · rw [h.2.1]; simp [dashQueueStep]; ring
    · rw [h.2.2.1]; simp [dashQueueStep]; ring
    · rw [h.2.2.2.1]; simp [dashQueueStep]; ring
    · rw [h.2.2.2.2]; simp [dashQueueStep]; ring

theorem countQuotes_escapeODataString (s : String) :
    countQuotes (escapeODataString s) = 2 * countQuotes s := by
  show ((s.data.map fun c =>
      if c = quoteChar then [quoteChar, quoteChar] else [c]).flatten.countP
        fun c => decide (c = quoteChar)) = 2 * s.data.countP fun c => decide (c = quoteChar)
  induction s.data with
  | nil => simp
  | cons c rest ih =>
    by_cases hc : c = quoteChar <;>
      simp [hc, List.countP_cons, List.countP_append, ih] <;> omega

theorem hexDigit_ne_quote : ∀ i, i < 16 → hexDigits[i]?.getD '0' ≠ quoteChar := by
  decide

theorem percentByte_no_quote (b : Nat) :
    ((percentByte b).countP fun c => decide (c = quoteChar)) = 0 := by
  have h1 : hexDigits[b / 16 % 16]?.getD '0' ≠ quoteChar :=
    hexDigit_ne_quote _ (by omega)
  have h2 : hexDigits[b % 16]?.getD '0' ≠ quoteChar :=
    hexDigit_ne_quote _ (by omega)
  have h3 : ¬(('%' : Char) = quoteChar) := by decide
  simp [percentByte, List.countP_cons, h1, h2, h3]

theorem percentBytes_no_quote (bl : List Nat) :
    (((bl.map percentByte).flatten).countP fun c => decide (c = quoteChar)) = 0 := by
  induction bl with
  | nil => simp
  | cons b rest ih =>
    simp [List.countP_append, ih, percentByte_no_quote]

theorem countQuotes_encodeURIComponent (s : String) :
    countQuotes (encodeURIComponent s) = countQuotes s := by
  show ((s.data.map fun c =>
      if uriUnreservedChar c then [c]
      else ((utf8Bytes c).map percentByte).flatten).flatten.countP
        fun c => decide (c = quoteChar)) = s.data.countP fun c => decide (c = quoteChar)
  induction s.data with
  | nil => simp
  | cons c rest ih =>
    by_cases hu : uriUnreservedChar c = true
    · simp [hu, List.countP_cons, List.countP_append, ih]
    · have hcq : ¬(c = quoteChar) := by
        intro h
        subst h
        exact hu (by decide)
      have hz := percentBytes_no_quote (utf8Bytes c)
      simp at hz
      simp [hu, List.countP_cons, List.countP_append, ih, hcq, hz]

end UiPath

namespace UiPath

/-- C2: for every stats computation — queue statistics, job statistics,
process performance, and the dashboard summary's queue rate — a zero
successful+failed (resp. successful+faulted) denominator yields a
`null` success rate, and a positive denominator yields exactly
`successful / denominator * 100`. -/
theorem successRate_null_on_no_data (qid : Int) (qn : String)
    (counts : QueueItemStatus → Option Int)
    (q : JobState → CountOutcome) (rawJobs : List Job)
    (parse : String → Option Int) (pname : String) (jobs : List Job)
    (queues : List QueueDefinitionR) (jstats : JobStats)
    (qc : Int → String → QueueItemStatus → Option Int) :
    (((getQueueStats qid qn counts).successfulItems +
        (getQueueStats qid qn counts).failedItems = 0 →
      (getQueueStats qid qn counts).successRate = none) ∧
     (0 < (getQueueStats qid qn counts).successfulItems +
        (getQueueStats qid qn counts).failedItems →
      (getQueueStats qid qn counts).successRate =
        some (((getQueueStats qid qn counts).successfulItems : ℚ) /
          (((getQueueStats qid qn counts).successfulItems +
            (getQueueStats qid qn counts).failedItems : Int) : ℚ) * 100))) ∧
    (((getJobStats q rawJobs).successfulJobs + (getJobStats q rawJobs).faultedJobs = 0 →
      (getJobStats q rawJobs).successRate = none) ∧
     (0 < (getJobStats q rawJobs).successfulJobs + (getJobStats q rawJobs).faultedJobs →
      (getJobStats q rawJobs).successRate =
        some (((getJobStats q rawJobs).successfulJobs : ℚ) /
          (((getJobStats q rawJobs).successfulJobs +
            (getJobStats q rawJobs).faultedJobs : Int) : ℚ) * 100))) ∧
    (((getProcessPerformance parse pname jobs).successful +
        (getProcessPerformance parse pname jobs).faulted = 0 →
      (getProcessPerformance parse pname jobs).successRate = none) ∧
     (0 < (getProcessPerformance parse pname jobs).successful +
        (getProcessPerformance parse pname jobs).faulted →
      (getProcessPerformance parse pname jobs).successRate =
        some (((getProcessPerformance parse pname jobs).successful : ℚ) /
          (((getProcessPerformance parse pname jobs).successful +
            (getProcessPerformance parse pname jobs).faulted : Nat) : ℚ) * 100))) ∧
    (((getDashboardSummary queues jstats qc).1.queueItemsByStatus.Successful +
        (getDashboardSummary queues jstats qc).1.queueItemsByStatus.Failed = 0 →
      (getDashboardSummary queues jstats qc).1.successRateQueues = none) ∧
     (0 < (getDashboardSummary queues jstats qc).1.queueItemsByStatus.Successful +
        (getDashboardSummary queues jstats qc).1.queueItemsByStatus.Failed →
      (getDashboardSummary queues jstats qc).1.successRateQueues =
        some (((getDashboardSummary queues jstats qc).1.queueItemsByStatus.Successful : ℚ) /
          (((getDashboardSummary queues jstats qc).1.queueItemsByStatus.Successful +
            (getDashboardSummary queues jstats qc).1.queueItemsByStatus.Failed : Int) : ℚ) *
          100))) :=
  ⟨queueStats_rate_aux qid qn counts, getJobStats_rate_aux q rawJobs,
   perf_rate_aux parse pname jobs, dash_rate_aux queues jstats qc⟩

/-- Witness for C2: a queue whose five per-status counts are all 0 has
a `null` success rate (not 0 or 100). -/
theorem successRate_null_on_no_data_witness :
    (getQueueStats 1 "Orders" (fun _ => some 0)).successRate = none :=
  (successRate_null_on_no_data 1 "Orders" (fun _ => some 0)
    (fun _ => .ok (some 0)) [] (fun _ => none) "P" [] [] initJobStats
    (fun _ _ _ => none)).1.1 (by decide)

/-- C3: if any per-state count query of `getJobStats` returns an
unknown (`null`) count or throws, the per-state strategy is abandoned:
the returned statistics equal the success-rate epilogue applied to the
client-side tally of the raw 1000-job fetch, with `Stopped` and
`Terminated` folded into `stoppedJobs` — never a partial per-state
sum. -/
theorem getJobStats_fallback_total (q : JobState → CountOutcome) (rawJobs : List Job)
    (h : ∃ s ∈ jobStatsStates, q s = .err ∨ q s = .ok none) :
    getJobStats q rawJobs = applyJobSuccessRate (tallyJobStats rawJobs) ∧
    tallyJobStats rawJobs =
      { totalJobs := (rawJobs.length : Int)
        pendingJobs := (rawJobs.countP (fun j => decide (j.State = JobState.Pending)) : Int)
        runningJobs := (rawJobs.countP (fun j => decide (j.State = JobState.Running)) : Int)
        successfulJobs :=
          (rawJobs.countP (fun j => decide (j.State = JobState.Successful)) : Int)
        faultedJobs := (rawJobs.countP (fun j => decide (j.State = JobState.Faulted)) : Int)
        stoppedJobs := (rawJobs.countP (fun j => decide (j.State = JobState.Stopped) ||
          decide (j.State = JobState.Terminated)) : Int)
        successRate := none } := by
  have hfb := jobStatsLoop_fallback q jobStatsStates initJobStats h
  exact ⟨by simp [getJobStats, hfb], tallyJobStats_closed rawJobs⟩

/-- Witness for C3: with every per-state count `null` and a raw fetch
of one successful and one terminated job, the result is the client-side
tally (rate 100, terminated folded into stopped). -/
theorem getJobStats_fallback_total_witness :
    getJobStats (fun _ => CountOutcome.ok none)
      [{ Id := 1, Key := "k1", State := .Successful, ReleaseName := "P",
         StartTime := none, EndTime := none },
       { Id := 2, Key := "k2", State := .Terminated, ReleaseName := "P",
         StartTime := none, EndTime := none }] =
      { totalJobs := 2, pendingJobs := 0, runningJobs := 0, successfulJobs := 1,
        faultedJobs := 0, stoppedJobs := 1, successRate := some 100 } := by
  rw [(getJobStats_fallback_total (fun _ => CountOutcome.ok none) _
    ⟨.Pending, by simp [jobStatsStates], Or.inr rfl⟩).1]
  simp [tallyJobStats, jobTallyStep, initJobStats, applyJobSuccessRate]

/-- C4 counterexample: an error whose message contains `"Invalid OData"`
but not the code's actual trigger substring `"Invalid OData query
options"` is propagated with no retry (trace holds the one full-featured
request only), contradicting the claim that matching `"Invalid OData"`
suffices for a retry. -/
theorem getQueueItems_invalid_odata_cex :
    strContains "API request failed (400): Invalid OData." "Invalid OData" = true ∧
    getQueueItems invalidODataEnvQ {} =
      ([queueItemsFullParams {}],
       .error { message := "API request failed (400): Invalid OData." }) := by
  constructor
  · decide
  · rfl

/-- C4 (amended): `getQueueItems` and `getJobs` first issue the
full-featured query (`$count=true` and `$orderby` defaulting to
`CreationTime desc`); on an error whose message contains
`"Invalid OData query options"` they retry exactly once with `$count`
and `$orderby` both dropped, returning the retry page and its (absent,
hence `null`) count; any other error propagates without retry. -/
theorem getQueueItems_getJobs_fallback_amended
    (envQ : List (String × String) → Except ODataError (ODataListResponse QueueItem))
    (optsQ : QueueItemsOptions)
    (envJ : List (String × String) → Except ODataError (ODataListResponse Job))
    (optsJ : JobsOptions) :
    (("$count", "true") ∈ queueItemsFullParams optsQ ∧
     ("$orderby", jsOrStr optsQ.orderBy "CreationTime desc") ∈ queueItemsFullParams optsQ) ∧
    (∀ d, envQ (queueItemsFullParams optsQ) = .ok d →
      getQueueItems envQ optsQ = ([queueItemsFullParams optsQ], .ok (d.value, d.count))) ∧
    (∀ e d2, envQ (queueItemsFullParams optsQ) = .error e →
      strContains e.message "Invalid OData query options" = true →
      envQ (queueItemsRetryParams optsQ) = .ok d2 →
      getQueueItems envQ optsQ =
        ([queueItemsFullParams optsQ, queueItemsRetryParams optsQ],
         .ok (d2.value, d2.count))) ∧
    (∀ v, ("$count", v) ∉ queueItemsRetryParams optsQ) ∧
    (∀ v, ("$orderby", v) ∉ queueItemsRetryParams optsQ) ∧
    (∀ e, envQ (queueItemsFullParams optsQ) = .error e →
      strContains e.message "Invalid OData query options" = false →
      getQueueItems envQ optsQ = ([queueItemsFullParams optsQ], .error e)) ∧
    (("$count", "true") ∈ jobsFullParams optsJ ∧
     ("$orderby", jsOrStr optsJ.orderBy "CreationTime desc") ∈ jobsFullParams optsJ) ∧
    (∀ d, envJ (jobsFullParams optsJ) = .ok d →
      getJobs envJ optsJ = ([jobsFullParams optsJ], .ok (d.value, d.count))) ∧
    (∀ e d2, envJ (jobsFullParams optsJ) = .error e →
      strContains e.message "Invalid OData query options" = true →
      envJ (jobsRetryParams optsJ) = .ok d2 →
      getJobs envJ optsJ =
        ([jobsFullParams optsJ, jobsRetryParams optsJ], .ok (d2.value, d2.count))) ∧
    (∀ v, ("$count", v) ∉ jobsRetryParams optsJ) ∧
    (∀ v, ("$orderby", v) ∉ jobsRetryParams optsJ) ∧
    (∀ e, envJ (jobsFullParams optsJ) = .error e →
      strContains e.message "Invalid OData query options" = false →
      getJobs envJ optsJ = ([jobsFullParams optsJ], .error e)) := by
  have hordQ : optStrTruthy (some (jsOrStr optsQ.orderBy "CreationTime desc")) = true := by
    simpa [optStrTruthy] using jsOrStr_ne_empty optsQ.orderBy _ (by decide)
  have hordJ : optStrTruthy (some (jsOrStr optsJ.orderBy "CreationTime desc")) = true := by
    simpa [optStrTruthy] using jsOrStr_ne_empty optsJ.orderBy _ (by decide)
  refine ⟨⟨?_, ?_⟩, ?_, ?_, ?_, ?_, ?_, ⟨?_, ?_⟩, ?_, ?_, ?_, ?_, ?_⟩
  · simp [queueItemsFullParams, queueItemsParams]
  · simp [queueItemsFullParams, queueItemsParams, hordQ]
  · intro d h
    simp [getQueueItems, h]
  · intro e d2 h1 h2 h3
    simp [getQueueItems, h1, h2, h3]
  · intro v hmem
    by_cases hf : (queueItemsFilters optsQ).isEmpty <;>
      simp [queueItemsRetryParams, queueItemsParams, filterParam, optStrTruthy, hf] at hmem
  · intro v hmem
    by_cases hf : (queueItemsFilters optsQ).isEmpty <;>
      simp [queueItemsRetryParams, queueItemsParams, filterParam, optStrTruthy, hf] at hmem
  · intro e h1 h2
    simp [getQueueItems, h1, h2]
  · simp [jobsFullParams, jobsParams]
  · simp [jobsFullParams, jobsParams, hordJ]
  · intro d h
    simp [getJobs, h]
  · intro e d2 h1 h2 h3
    simp [getJobs, h1, h2, h3]
  · intro v hmem
    by_cases hf : (jobsFilters optsJ).isEmpty <;>
      simp [jobsRetryParams, jobsParams, filterParam, optStrTruthy, hf] at hmem
  · intro v hmem
    by_cases hf : (jobsFilters optsJ).isEmpty <;>
      simp [jobsRetryParams, jobsParams, filterParam, optStrTruthy, hf] at hmem
  · intro e h1 h2
    simp [getJobs, h1, h2]

/-- Witness for C4: against a server rejecting the full query with the
exact trigger message, `getQueueItems` issues exactly the two requests
and returns the uncounted retry page. -/
theorem getQueueItems_getJobs_fallback_amended_witness :
    getQueueItems fallbackEnvQ {} =
      ([queueItemsFullParams {}, queueItemsRetryParams {}], .ok ([], none)) := by
  have h := (getQueueItems_getJobs_fallback_amended fallbackEnvQ {}
      (fun _ => .ok { value := [], count := none }) {}).2.2.1
    { message := "API request failed (400): Invalid OData query options" }
    { value := [], count := none }
    rfl (by decide) rfl
  simpa using h

/-- C6: `getDashboardSummary` issues per-queue statistics sub-fetches
for exactly the first five queue definitions in list order (so never
more than 5), sums only those queues' per-status counts into
`queueItemsByStatus` and `totalQueueItems`, and still reports the full
number of queue definitions in `totalQueues`. -/
theorem getDashboardSummary_sampling_cap (queues : List QueueDefinitionR)
    (jstats : JobStats) (qc : Int → String → QueueItemStatus → Option Int) :
    (getDashboardSummary queues jstats qc).2 =
      (queues.take 5).map (fun q => (q.Id, q.Name)) ∧
    (getDashboardSummary queues jstats qc).2.length ≤ 5 ∧
    (getDashboardSummary queues jstats qc).1.totalQueues = queues.length ∧
    (getDashboardSummary queues jstats qc).1.queueItemsByStatus.New =
      ((queues.take 5).map
        (fun q => (getQueueStats q.Id q.Name (qc q.Id q.Name)).newItems)).sum ∧
    (getDashboardSummary queues jstats qc).1.queueItemsByStatus.InProgress =
      ((queues.take 5).map
        (fun q => (getQueueStats q.Id q.Name (qc q.Id q.Name)).inProgressItems)).sum ∧
    (getDashboardSummary queues jstats qc).1.queueItemsByStatus.Successful =
      ((queues.take 5).map
        (fun q => (getQueueStats q.Id q.Name (qc q.Id q.Name)).successfulItems)).sum ∧
    (getDashboardSummary queues jstats qc).1.queueItemsByStatus.Failed =
      ((queues.take 5).map
        (fun q => (getQueueStats q.Id q.Name (qc q.Id q.Name)).failedItems)).sum ∧
    (getDashboardSummary queues jstats qc).1.totalQueueItems =
      ((queues.take 5).map
        (fun q => (getQueueStats q.Id q.Name (qc q.Id q.Name)).totalItems)).sum := by
  have h := dashFold qc (queues.take 5)
    ({ New := 0, InProgress := 0, Successful := 0, Failed := 0 }, 0)
  refine ⟨rfl, ?_, rfl, ?_, ?_, ?_, ?_, ?_⟩
  · simp [getDashboardSummary]
  · simpa [getDashboardSummary] using h.1
  · simpa [getDashboardSummary] using h.2.1
  · simpa [getDashboardSummary] using h.2.2.1
  · simpa [getDashboardSummary] using h.2.2.2.1
  · simpa [getDashboardSummary] using h.2.2.2.2

/-- C7: `findReleaseByNameOrKey` issues the exact-key query first, the
exact-name query only when the key query is empty, and returns the
first key match if any, else the first name match, else `null` — a key
match wins even when no name matches. -/
theorem findReleaseByNameOrKey_key_first (env : ReleaseQuery → List Release)
    (k : String) :
    (findReleaseByNameOrKey env k).2 =
      (if (env (.byKey k)).isEmpty then (env (.byName k)).head?
       else (env (.byKey k)).head?) ∧
    (findReleaseByNameOrKey env k).1 =
      (if (env (.byKey k)).isEmpty then [.byKey k, .byName k] else [.byKey k]) := by
  cases henv : env (.byKey k) <;> simp [findReleaseByNameOrKey, henv]

/-- C8 counterexample: `getQueueDefinitionByName` interpolates the queue
name through `encodeURIComponent`, which leaves the embedded single
quote of a name like O'Brien intact (1 quote, not doubled), so the
produced `$filter` differs from the quote-doubled form the claim
demands. -/
theorem queueDefinitionByName_quote_cex :
    queueDefinitionByNameParams ("O" ++ sq ++ "Brien") =
      [("$filter", "Name eq " ++ sq ++ "O" ++ sq ++ "Brien" ++ sq)] ∧
    countQuotes ("O" ++ sq ++ "Brien") = 1 ∧
    countQuotes (encodeURIComponent ("O" ++ sq ++ "Brien")) = 1 ∧
    queueDefinitionByNameParams ("O" ++ sq ++ "Brien") ≠
      [("$filter", "Name eq " ++ sq ++ escapeODataString ("O" ++ sq ++ "Brien") ++ sq)] := by
  decide

/-- C8 (amended): only the values interpolated through
`escapeODataString` — audit-log action, user name and component, the
faulted-jobs release filter, and the name fallback of
`findReleaseByNameOrKey` — have each embedded single quote doubled
(quote count exactly doubles); queue names, `getJobs` release names,
and robot-log job keys and levels go through `encodeURIComponent`,
which preserves embedded single quotes unchanged (quote count
preserved, never doubled). -/
theorem filter_escaping_amended (s a u c r n : String) :
    countQuotes (escapeODataString s) = 2 * countQuotes s ∧
    countQuotes (encodeURIComponent s) = countQuotes s ∧
    (a ≠ "" → auditLogsFilters (some a) none none none none =
      ["Action eq " ++ sq ++ escapeODataString a ++ sq]) ∧
    (u ≠ "" → auditLogsFilters none (some u) none none none =
      ["UserName eq " ++ sq ++ escapeODataString u ++ sq]) ∧
    (c ≠ "" → auditLogsFilters none none (some c) none none =
      ["Component eq " ++ sq ++ escapeODataString c ++ sq]) ∧
    faultedJobsReleaseFilter r = "ReleaseName eq " ++ sq ++ escapeODataString r ++ sq ∧
    releaseNameLookupParams n =
      [("$filter", "Name eq " ++ sq ++ escapeODataString n ++ sq)] ∧
    (r ≠ "" → jobsFilters { releaseName := some r } =
      ["ReleaseName eq " ++ sq ++ encodeURIComponent r ++ sq]) ∧
    queueDefinitionByNameParams n =
      [("$filter", "Name eq " ++ sq ++ encodeURIComponent n ++ sq)] ∧
    robotLogsJobKeyFilter s = "JobKey eq " ++ sq ++ encodeURIComponent s ++ sq ∧
    robotLogsLevelFilter s = "Level eq " ++ sq ++ encodeURIComponent s ++ sq := by
  refine ⟨countQuotes_escapeODataString s, countQuotes_encodeURIComponent s,
    ?_, ?_, ?_, rfl, rfl, ?_, rfl, rfl, rfl⟩
  · intro h; simp [auditLogsFilters, h]
  · intro h; simp [auditLogsFilters, h]
  · intro h; simp [auditLogsFilters, h]
  · intro h; simp [jobsFilters, h]

/-- Witness for C8: an audit action containing one quote is interpolated
with the quote doubled. -/
theorem filter_escaping_amended_witness :
    auditLogsFilters (some ("O" ++ sq ++ "Brien")) none none none none =
      ["Action eq " ++ sq ++ "O" ++ sq ++ sq ++ "Brien" ++ sq] := by
  have h := (filter_escaping_amended "" ("O" ++ sq ++ "Brien") "" "" "" "").2.2.1
    (by decide)
  rw [h]
  decide

/-- C9 counterexample: a supplied folder scope of `0` resolves to an
effective folder id of `0`, yet `getRobots` dispatches to the generic
`/odata/Robots` collection route, not the folder sub-route — the
endpoint choice is a JS truthiness test. -/
theorem getRobots_zero_folder_cex :
    getFolderId none (some 0) = some 0 ∧
    getRobotsEndpoint none (some 0) = "/odata/Robots" ∧
    getRobotsEndpoint none (some 0) ≠ robotsFromFolderRoute 0 := by
  refine ⟨rfl, rfl, ?_⟩
  decide

/-- C9 (amended): whenever the effective folder id (explicit value,
else configured default) is present and nonzero, `getRobots` dispatches
to the `GetRobotsFromFolder(folderId=...)` sub-route; with no folder
scope — or a folder id of `0`, which the truthiness test treats as
absent — the generic `/odata/Robots` route is used. -/
theorem getRobots_folder_route_amended (d f : Option Int) (n : Int) :
    (getFolderId d f = some n → n ≠ 0 →
      getRobotsEndpoint d f = robotsFromFolderRoute n) ∧
    (getFolderId d f = none → getRobotsEndpoint d f = "/odata/Robots") ∧
    (getFolderId d f = some 0 → getRobotsEndpoint d f = "/odata/Robots") ∧
    (∀ k : Int, getFolderId d (some k) = some k) ∧
    getFolderId d none = d := by
  refine ⟨?_, ?_, ?_, fun k => rfl, rfl⟩
  · intro h hn
    simp [getRobotsEndpoint, h, hn]
  · intro h
    simp [getRobotsEndpoint, h]
  · intro h
    simp [getRobotsEndpoint, h]

/-- Witness for C9: an explicit folder id 7 dispatches to the folder
sub-route. -/
theorem getRobots_folder_route_amended_witness :
    getRobotsEndpoint none (some 7) = robotsFromFolderRoute 7 :=
  (getRobots_folder_route_amended none (some 7) 7).1 rfl (by decide)

/-- C10: in `getQueueStats` an unknown (`null`) per-status count is
recorded as 0 for that status and contributes 0 to `totalItems` — the
result is identical to the one for the same counts with `null` replaced
by 0, the totals and rate being computed from the remaining statuses'
counts only, with no failure and no raw-fetch fallback (the function is
total in the counts and takes no fallback input). -/
theorem getQueueStats_unknown_counts_as_zero (qid : Int) (qn : String)
    (counts : QueueItemStatus → Option Int) :
    getQueueStats qid qn counts =
      getQueueStats qid qn (fun s => some ((counts s).getD 0)) ∧
    (getQueueStats qid qn counts).newItems = (counts .New).getD 0 ∧
    (getQueueStats qid qn counts).inProgressItems = (counts .InProgress).getD 0 ∧
    (getQueueStats qid qn counts).successfulItems = (counts .Successful).getD 0 ∧
    (getQueueStats qid qn counts).failedItems = (counts .Failed).getD 0 ∧
    (getQueueStats qid qn counts).abandonedItems = (counts .Abandoned).getD 0 ∧
    (getQueueStats qid qn counts).totalItems =
      (counts .New).getD 0 + (counts .InProgress).getD 0 + (counts .Successful).getD 0 +
      (counts .Failed).getD 0 + (counts .Abandoned).getD 0 ∧
    (getQueueStats qid qn counts).successRate =
      (if 0 < (counts .Successful).getD 0 + (counts .Failed).getD 0 then
        some (((counts .Successful).getD 0 : ℚ) /
          (((counts .Successful).getD 0 + (counts .Failed).getD 0 : Int) : ℚ) * 100)
      else none) := by
  refine ⟨?_, ?_, ?_, ?_, ?_, ?_, ?_, ?_⟩ <;>
    simp [getQueueStats, queueStatsStatuses, queueStatsStep] <;>
    split <;> simp_all

end UiPath
